import Mathlib

/-!
# Verification of the Meta_Minds core pipeline specification

Shallow embedding of the deterministic core of the Meta_Minds repository:
the question-block normalizer (`_trim_questions_to_exact_count` and the
question-formatting part of `format_output_final` in `src/core/main.py`),
the offline template generator (`_generate_offline_individual_result`,
`_generate_offline_comparison_result`), the ingestion validator
(`check_file_safety`, `read_file` in `src/core/data_loader.py`), the column
semantic classifier (`_analyze_column_intelligently` in
`src/core/data_analyzer.py`), the context extractor
(`read_input_folder_context`, `_parse_dataset_background` in
`src/core/context_collector.py`) and the rate-limit switch
(`_detect_rate_limiting` and the dispatch in `main`).

Text is modelled as `List Char` (Python `str` is a sequence of code points).
Python's line-splitting, stripping, regular-expression prefix matches and
string formatting used by the code are embedded as executable definitions.
-/

namespace MetaMinds

/-! ## Basic character/string utilities mirroring Python primitives -/

/-- Python's whitespace class used by `\s`, `str.strip()` and `str.split()`
with no argument: space, tab, newline, carriage return, form feed,
vertical tab. -/
def pyIsSpace (c : Char) : Bool :=
  c == ' ' || c == '\t' || c == '\n' || c == '\r' || c == '\x0c' || c == '\x0b'

/-- `line.strip()` is truthy: the line has at least one non-whitespace char. -/
def lineNonBlank (l : List Char) : Bool :=
  l.any (fun c => !pyIsSpace c)

/-- Python `str.lstrip()`. -/
def lstrip (l : List Char) : List Char := l.dropWhile pyIsSpace

/-- Python `str.rstrip()`. -/
def rstrip (l : List Char) : List Char := (l.reverse.dropWhile pyIsSpace).reverse

/-- Python `str.strip()`. -/
def pstrip (l : List Char) : List Char := rstrip (lstrip l)

/-- `prefixMatch sub l` is true when `sub` is a prefix of `l`. -/
def prefixMatch : List Char → List Char → Bool
  | [], _ => true
  | _ :: _, [] => false
  | a :: as, b :: bs => a == b && prefixMatch as bs

/-- `containsFrom sub l` is true when `sub` occurs as a contiguous run in
`l` (Python's `sub in l`). -/
def containsFrom (sub : List Char) : List Char → Bool
  | [] => prefixMatch sub []
  | c :: cs => prefixMatch sub (c :: cs) || containsFrom sub cs

/-- Python's `sub in s` on strings, as a proposition. -/
def strContains (s sub : List Char) : Prop := containsFrom sub s = true

instance (s sub : List Char) : Decidable (strContains s sub) := by
  unfold strContains; infer_instance

/-- Python `text.split('\n')`: split at every newline, keeping empty parts. -/
def splitLines : List Char → List (List Char)
  | [] => [[]]
  | c :: cs =>
    if c == '\n' then [] :: splitLines cs
    else
      match splitLines cs with
      | [] => [[c]]
      | l :: ls => (c :: l) :: ls

/-- Python `sep.join(parts)`. -/
def joinWith (sep : List Char) : List (List Char) → List Char
  | [] => []
  | [l] => l
  | l :: ls => l ++ sep ++ joinWith sep ls

/-- Python `s.split(sep, 1)` when `sep` occurs: the part before the first
occurrence of `sep` and the part after it; `none` when `sep` is absent. -/
def splitFirst (sep : List Char) : List Char → Option (List Char × List Char)
  | [] => if prefixMatch sep [] then some ([], []) else none
  | c :: cs =>
    if prefixMatch sep (c :: cs) then some ([], (c :: cs).drop sep.length)
    else
      match splitFirst sep cs with
      | some (a, b) => some (c :: a, b)
      | none => none

/-- The decimal digit character of `d % 10`. -/
def digitChar (d : Nat) : Char :=
  if d % 10 = 0 then '0' else if d % 10 = 1 then '1' else if d % 10 = 2 then '2'
  else if d % 10 = 3 then '3' else if d % 10 = 4 then '4' else if d % 10 = 5 then '5'
  else if d % 10 = 6 then '6' else if d % 10 = 7 then '7' else if d % 10 = 8 then '8'
  else '9'

/-- Decimal digits of `n` (most significant first), fuelled recursion. -/
def natDigitsAux : Nat → Nat → List Char
  | 0, _ => []
  | fuel + 1, n => if n = 0 then [] else natDigitsAux fuel (n / 10) ++ [digitChar n]

/-- Python `str(n)` for a natural number. -/
def natDigits (n : Nat) : List Char :=
  if n = 0 then ['0'] else natDigitsAux n n

/-- Python `str(i)` for an integer. -/
def intDigits (i : Int) : List Char :=
  if i < 0 then '-' :: natDigits i.natAbs else natDigits i.natAbs

/-! ## Question-Block Normalizer (`_trim_questions_to_exact_count`)

`src/core/main.py` lines 361-419.  The function splits the generated text
into lines, extracts numbered items (a line matching the regular expression
`^\s*(\d+)[\.\)]\s+` opens an item, subsequent non-blank lines continue it,
a blank line closes it), keeps only the first `expected_count` items when
more were extracted, and rebuilds header + items separated by blank lines. -/

/-- Python digit test for `\d` on the ASCII inputs the claims use. -/
def isDig (c : Char) : Bool := '0' ≤ c && c ≤ '9'

/-- `re.match(r'^\s*(\d+)[\.\)]\s+', line)` succeeds: optional leading
whitespace, one or more digits, a `.` or `)`, then at least one
whitespace character. -/
def matchNumberedStrict (l : List Char) : Bool :=
  let rest := l.dropWhile pyIsSpace
  let digits := rest.takeWhile isDig
  let after := rest.dropWhile isDig
  decide (digits ≠ []) &&
    (match after with
     | c :: d :: _ => (c == '.' || c == ')') && pyIsSpace d
     | _ => false)

/-- `re.match(r'^\s*\d+[\.\)]', line)` succeeds: like the strict match but
with no trailing-whitespace requirement (used for the header scan). -/
def matchNumberedLoose (l : List Char) : Bool :=
  let rest := l.dropWhile pyIsSpace
  let digits := rest.takeWhile isDig
  let after := rest.dropWhile isDig
  decide (digits ≠ []) &&
    (match after with
     | c :: _ => c == '.' || c == ')'
     | [] => false)

/-- Loop state of the extraction loop in `_trim_questions_to_exact_count`:
collected question chunks, the lines of the question being built, and the
`in_question` flag. -/
structure ExtractState where
  qs : List (List Char)
  cur : List (List Char)
  inQ : Bool

/-- One iteration of the `for line in lines` loop (main.py lines 381-398). -/
def extractStep (st : ExtractState) (line : List Char) : ExtractState :=
  if matchNumberedStrict line then
    { qs := st.qs ++ (if st.cur ≠ [] then [joinWith ['\n'] st.cur] else []),
      cur := [line], inQ := true }
  else if st.inQ && lineNonBlank line then
    { st with cur := st.cur ++ [line] }
  else if !lineNonBlank line && decide (st.cur ≠ []) then
    { qs := st.qs ++ [joinWith ['\n'] st.cur], cur := [], inQ := false }
  else st

/-- The extracted question chunks of a text: run the loop over all lines
and close the final, possibly still-open item (main.py lines 374-402). -/
def extractQuestionLines (text : List Char) : List (List Char) :=
  let fin := (splitLines text).foldl extractStep ⟨[], [], false⟩
  fin.qs ++ (if fin.cur ≠ [] then [joinWith ['\n'] fin.cur] else [])

/-- The `question_lines` list after the trim step (main.py lines 405-407):
keep only the first `expectedCount` chunks when more were extracted. -/
def trimmedQuestionLines (text : List Char) (expectedCount : Nat) : List (List Char) :=
  let q := extractQuestionLines text
  if q.length > expectedCount then q.take expectedCount else q

/-- The header lines preceding the first numbered line (main.py lines 410-414). -/
def headerLinesOf (text : List Char) : List (List Char) :=
  (splitLines text).takeWhile (fun l => !matchNumberedLoose l)

/-- `_trim_questions_to_exact_count(result_text, expected_count)`
(main.py lines 361-419): rebuilt output, header then the kept chunks
separated by blank lines. -/
def trimQuestionsToExactCount (text : List Char) (expectedCount : Nat) : List Char :=
  rstrip (joinWith ['\n'] (headerLinesOf text)) ++ '\n' :: '\n' ::
    joinWith ('\n' :: '\n' :: []) (trimmedQuestionLines text expectedCount)

/-! ## Question formatting in `format_output_final`

`src/core/main.py` lines 689-717: per task result, drop blank lines and
lines containing the header, strip a leading numbering token from each
line, then emit `f"{idx}. {question}"` with `idx` counted from 1. -/

/-- A word character for Python's `\w` (so `\W` is its negation). -/
def isWordChar (c : Char) : Bool := c.isAlpha || isDig c || c == '_'

/-- `line_stripped[match.end():]` for `re.match(r'^\d+\W*\s*', line_stripped)`:
drop the leading digits, then the maximal run of non-word characters (which
also swallows the whitespace `\s*` would take). -/
def stripLeadingNumber (l : List Char) : List Char :=
  (l.dropWhile isDig).dropWhile (fun c => !isWordChar c)

/-- Python `s.isdigit()` for ASCII strings: nonempty and all digits. -/
def pyIsDigitStr (l : List Char) : Bool := decide (l ≠ []) && l.all isDig

/-- The per-line cleanup of main.py lines 696-713: try `line.split('. ', 1)`
with a digit-only first part, otherwise strip a leading numbering token
from the stripped line when it starts with a digit. -/
def formatLine (line : List Char) : List Char :=
  match splitFirst ('.' :: ' ' :: []) line with
  | some (a, b) =>
    if pyIsDigitStr (pstrip a) then pstrip b
    else
      let ls := pstrip line
      match ls with
      | [] => ls
      | c :: _ => if isDig c then pstrip (stripLeadingNumber ls) else ls
  | none =>
    let ls := pstrip line
    match ls with
    | [] => ls
    | c :: _ => if isDig c then pstrip (stripLeadingNumber ls) else ls

/-- The `formatted_questions` list of main.py lines 689-713 for one task
result: strip the content, drop blank lines and lines containing the
(stripped) header, and clean each remaining line. -/
def formatQuestionLines (header content : List Char) : List (List Char) :=
  let contentStr := pstrip content
  let cleaned := (splitLines contentStr).filter
    (fun l => !containsFrom (pstrip header) l && lineNonBlank l)
  cleaned.map formatLine

/-- `for idx, question in enumerate(formatted_questions, start=1):
output_lines.append(f"{idx}. {question}")` (main.py lines 716-717). -/
def renderNumbered (start : Nat) : List (List Char) → List (List Char)
  | [] => []
  | q :: qs => (natDigits start ++ '.' :: ' ' :: q) :: renderNumbered (start + 1) qs

/-! ## Offline Template Generator

`src/core/main.py` lines 476-632: `_generate_offline_results` maps each
task to a dataset name (`"Assets.csv"`, `"Liabilities.csv"`,
`"Top_10_Ratio.csv"`, `"Cross-Dataset Comparison"` or the default
`"Unknown Dataset"`), then `_generate_offline_individual_result` /
`_generate_offline_comparison_result` pick a pre-numbered template list by
substring tests on the name and slice it to `num_questions`. -/

/-- The template list of `_generate_offline_individual_result`
(main.py lines 529-600), selected by `"Assets" in dataset_name`,
`"Liabilities" in dataset_name`, `"Ratio" in dataset_name`, else the
generic f-string list instantiated with the dataset name. -/
def offlineIndividualQuestions (datasetName : List Char) : List (List Char) :=
  if containsFrom "Assets".data datasetName then
    [ "1. What specific trends and patterns can be identified in airline current assets over the 2013-2023 period?".data
    , "2. How do current asset levels correlate with seasonal variations in airline operations?".data
    , "3. What measurable insights can be extracted from current asset data to guide financial risk assessment?".data
    , "4. In what ways do current asset patterns reveal unexpected relationships or anomalies across different carriers?".data
    , "5. How can current asset information be leveraged to predict future financial stability for airline executives?".data
    , "6. What key performance indicators emerge from analyzing current asset trends for risk management?".data
    , "7. How do seasonal or temporal variations manifest in current asset data across different quarters?".data
    , "8. What factors contribute most significantly to the variations observed in current asset levels?".data
    , "9. In what ways can current asset data inform strategic business decisions for airline executives?".data
    , "10. How do different airline carriers compare in terms of current asset management efficiency?".data
    , "11. What are the critical current asset thresholds that indicate financial risk for airline operations?".data
    , "12. How do current asset trends differ between pre-COVID, during-COVID, and post-COVID periods?".data
    , "13. What current asset patterns can be used to identify airlines at risk of financial distress?".data
    , "14. How do current asset levels correlate with overall airline financial performance metrics?".data
    , "15. What actionable insights can executives derive from current asset analysis for strategic planning?".data ]
  else if containsFrom "Liabilities".data datasetName then
    [ "1. What specific trends and patterns can be identified in airline current liabilities over the 2013-2023 period?".data
    , "2. How do current liability levels correlate with seasonal variations in airline operations?".data
    , "3. What measurable insights can be extracted from current liability data to guide financial risk assessment?".data
    , "4. In what ways do current liability patterns reveal unexpected relationships or anomalies across different carriers?".data
    , "5. How can current liability information be leveraged to predict future financial stability for airline executives?".data
    , "6. What key performance indicators emerge from analyzing current liability trends for risk management?".data
    , "7. How do seasonal or temporal variations manifest in current liability data across different quarters?".data
    , "8. What factors contribute most significantly to the variations observed in current liability levels?".data
    , "9. In what ways can current liability data inform strategic business decisions for airline executives?".data
    , "10. How do different airline carriers compare in terms of current liability management efficiency?".data
    , "11. What are the critical current liability thresholds that indicate financial risk for airline operations?".data
    , "12. How do current liability trends differ between pre-COVID, during-COVID, and post-COVID periods?".data
    , "13. What current liability patterns can be used to identify airlines at risk of financial distress?".data
    , "14. How do current liability levels correlate with overall airline financial performance metrics?".data
    , "15. What actionable insights can executives derive from current liability analysis for strategic planning?".data ]
  else if containsFrom "Ratio".data datasetName then
    [ "1. What specific trends and patterns can be identified in airline current ratios over the 2013-2023 period?".data
    , "2. How do current ratio levels correlate with seasonal variations in airline operations?".data
    , "3. What measurable insights can be extracted from current ratio data to guide financial risk assessment?".data
    , "4. In what ways do current ratio patterns reveal unexpected relationships or anomalies across different carriers?".data
    , "5. How can current ratio information be leveraged to predict future financial stability for airline executives?".data
    , "6. What key performance indicators emerge from analyzing current ratio trends for risk management?".data
    , "7. How do seasonal or temporal variations manifest in current ratio data across different quarters?".data
    , "8. What factors contribute most significantly to the variations observed in current ratio levels?".data
    , "9. In what ways can current ratio data inform strategic business decisions for airline executives?".data
    , "10. How do different airline carriers compare in terms of current ratio management efficiency?".data
    , "11. What are the critical current ratio thresholds that indicate financial risk for airline operations?".data
    , "12. How do current ratio trends differ between pre-COVID, during-COVID, and post-COVID periods?".data
    , "13. What current ratio patterns can be used to identify airlines at risk of financial distress?".data
    , "14. How do current ratio levels correlate with overall airline financial performance metrics?".data
    , "15. What actionable insights can executives derive from current ratio analysis for strategic planning?".data ]
  else
    [ "1. What specific trends and patterns can be identified in the ".data ++ datasetName ++ " dataset over time?".data
    , "2. How do different variables in the ".data ++ datasetName ++ " dataset correlate with each other?".data
    , "3. What measurable insights can be extracted from the ".data ++ datasetName ++ " dataset to guide decision-making?".data
    , "4. In what ways do the data points in ".data ++ datasetName ++ " reveal unexpected relationships or anomalies?".data
    , "5. How can the information in the ".data ++ datasetName ++ " dataset be leveraged to predict future outcomes?".data
    , "6. What key performance indicators emerge from analyzing the ".data ++ datasetName ++ " dataset?".data
    , "7. How do seasonal or temporal variations manifest in the ".data ++ datasetName ++ " data?".data
    , "8. What factors contribute most significantly to the variations observed in ".data ++ datasetName ++ "?".data
    , "9. In what ways can the ".data ++ datasetName ++ " dataset inform strategic business decisions?".data
    , "10. How do different segments or categories within ".data ++ datasetName ++ " compare in terms of key metrics?".data
    , "11. What are the critical thresholds that indicate risk in the ".data ++ datasetName ++ " dataset?".data
    , "12. How do trends in ".data ++ datasetName ++ " differ across different time periods?".data
    , "13. What patterns in ".data ++ datasetName ++ " can be used to identify potential issues?".data
    , "14. How do ".data ++ datasetName ++ " metrics correlate with overall performance indicators?".data
    , "15. What actionable insights can be derived from ".data ++ datasetName ++ " analysis for strategic planning?".data ]

/-- `_generate_offline_individual_result(dataset_name, context, num_questions)`
(main.py lines 516-605): header, blank line, then the template list sliced
to `num_questions` and joined with single newlines. -/
def generateOfflineIndividualResult (datasetName : List Char) (numQuestions : Nat) : List Char :=
  "--- Enhanced Questions for ".data ++ datasetName ++ " ---".data ++ '\n' :: '\n' ::
    joinWith ['\n'] ((offlineIndividualQuestions datasetName).take numQuestions)

/-- The comparison template list of `_generate_offline_comparison_result`
(main.py lines 616-627). -/
def offlineComparisonQuestions : List (List Char) :=
  [ "1. How do the key performance metrics compare across Assets.csv, Liabilities.csv, and Top_10_Ratio.csv?".data
  , "2. What are the significant differences in trends between the three airline financial datasets?".data
  , "3. Which dataset shows the strongest correlation patterns and why?".data
  , "4. How do the data quality and completeness compare across all three datasets?".data
  , "5. What insights emerge when analyzing all three datasets together for airline financial risk assessment?".data
  , "6. Which dataset contains the most actionable insights for financial analysis and executive decision-making?".data
  , "7. How do the temporal patterns differ between Assets, Liabilities, and Ratio datasets?".data
  , "8. What cross-dataset relationships can be identified for airline executives and risk management?".data
  , "9. Which dataset provides the most reliable predictions for future airline financial outcomes?".data
  , "10. How do the anomaly patterns compare across all three airline financial datasets?".data ]

/-- `_generate_offline_comparison_result(context, num_questions)`
(main.py lines 607-632). -/
def generateOfflineComparisonResult (numQuestions : Nat) : List Char :=
  "--- Enhanced Comparison Questions ---".data ++ '\n' :: '\n' ::
    joinWith ['\n'] (offlineComparisonQuestions.take numQuestions)

/-- The dataset names `_generate_offline_results` can pass to the
individual generator (main.py lines 495-503): the three recognized file
names, else the default `"Unknown Dataset"`. -/
def offlineDatasetNames : List (List Char) :=
  ["Assets.csv".data, "Liabilities.csv".data, "Top_10_Ratio.csv".data, "Unknown Dataset".data]

/-! ## Ingestion Validator (`src/core/data_loader.py`)

`check_file_safety` inspects only file metadata (existence, regular-file
flag, byte size); `read_file` gates on it, runs the interactive large-file
confirmation, then dispatches on the extension, trying the encoding ladder
for CSV.  `file_size_mb = size_bytes / (1024*1024)` divides by a power of
two, which is exact in binary floating point, so the Python comparisons
`file_size_mb > 500` and `file_size_mb > 50` are embedded as exact integer
comparisons on bytes. -/

def MAX_FILE_SIZE_MB : Nat := 500
def MAX_ROWS_DEFAULT : Nat := 1000000
def LARGE_FILE_WARNING_MB : Nat := 50

/-- Metadata of a file reference, the only inputs `check_file_safety`
reads. -/
structure FileMeta where
  path : List Char
  pathExists : Bool
  isRegularFile : Bool
  sizeBytes : Nat
  ext : List Char

/-- A loaded dataframe; `read_file` only inspects emptiness of the result,
modelled by the loaded row count. -/
structure Frame where
  rows : Nat
deriving DecidableEq

/-- Outcome of one underlying `pandas` read call: success, a
`UnicodeDecodeError`, or any other exception. -/
inductive PdOutcome
  | ok (df : Frame)
  | unicodeError
  | otherError
deriving DecidableEq

/-- A file reference with its metadata and the outcomes of the possible
read calls `read_file` can issue against it.  `csvDecode e` is
`pd.read_csv(file_path, encoding=e, nrows=max_rows)`; `csvLossy` is the
fallback read that suppresses undecodable bytes instead of raising;
`excelRead`/`jsonRead` are the spreadsheet and JSON readers. -/
structure SrcFile where
  meta : FileMeta
  csvDecode : List Char → PdOutcome
  csvLossy : PdOutcome
  excelRead : PdOutcome
  jsonRead : PdOutcome

/-- `f"{file_size_mb:.1f}"` for `size_bytes / 2^20`, one decimal digit
(rendered by truncation; the claims never depend on the digits). -/
def fmtMB1 (bytes : Nat) : List Char :=
  let tenths := bytes * 10 / 1048576
  natDigits (tenths / 10) ++ '.' :: digitChar tenths :: []

/-- `f"{file_size_mb:.2f}"` for `size_bytes / 2^20`, two decimal digits. -/
def fmtMB2 (bytes : Nat) : List Char :=
  let hundredths := bytes * 100 / 1048576
  natDigits (hundredths / 100) ++ '.' :: digitChar (hundredths / 10) :: digitChar hundredths :: []

/-- `check_file_safety(file_path)` (data_loader.py lines 10-38): reject a
missing path, a non-file path, or a file over `MAX_FILE_SIZE_MB`; warn
above `LARGE_FILE_WARNING_MB`; otherwise report OK. -/
def checkFileSafety (m : FileMeta) : Bool × List Char :=
  if !m.pathExists then (false, "File not found: ".data ++ m.path)
  else if !m.isRegularFile then (false, "Path is not a file: ".data ++ m.path)
  else if MAX_FILE_SIZE_MB * 1048576 < m.sizeBytes then
    (false, "File too large: ".data ++ fmtMB1 m.sizeBytes ++ "MB (max: ".data ++
      natDigits MAX_FILE_SIZE_MB ++ "MB)".data)
  else if LARGE_FILE_WARNING_MB * 1048576 < m.sizeBytes then
    (true, "WARNING: Large file detected (".data ++ fmtMB1 m.sizeBytes ++
      "MB). Loading may take time.".data)
  else (true, "File size OK: ".data ++ fmtMB2 m.sizeBytes ++ "MB".data)

/-- A failure of `read_file`: a `ValueError` raised by the function itself
(with its message), or an exception propagated from the underlying reader. -/
inductive ReadFailure
  | valueErr (msg : List Char)
  | readErr
deriving DecidableEq

/-- The encoding ladder of data_loader.py line 86. -/
def encodingsList : List (List Char) :=
  ["utf-8".data, "latin-1".data, "windows-1252".data, "iso-8859-1".data, "cp1252".data]

/-- Result of the `for encoding in encodings` loop (lines 88-94): the first
successful read wins, a `UnicodeDecodeError` moves to the next encoding,
any other exception propagates. -/
inductive TryResult
  | success (df : Frame)
  | raised
  | exhausted
deriving DecidableEq

def tryEncodings (f : SrcFile) : List (List Char) → TryResult
  | [] => .exhausted
  | e :: rest =>
    match f.csvDecode e with
    | .ok df => .success df
    | .unicodeError => tryEncodings f rest
    | .otherError => .raised

/-- The empty-file check at the end of `read_file` (lines 115-117). -/
def finishLoad (path : List Char) (df : Frame) : Except ReadFailure Frame :=
  if df.rows = 0 then
    .error (.valueErr ("File ".data ++ path ++ " is empty - no data to analyze".data))
  else .ok df

/-- The extension dispatch and load of `read_file` (lines 77-119), after
the safety gates have passed. -/
def loadPhase (f : SrcFile) : Except ReadFailure Frame :=
  if f.meta.ext = ".csv".data then
    match tryEncodings f encodingsList with
    | .success df => finishLoad f.meta.path df
    | .raised => .error .readErr
    | .exhausted =>
      match f.csvLossy with
      | .ok df => finishLoad f.meta.path df
      | _ => .error .readErr
  else if f.meta.ext = ".xlsx".data then
    match f.excelRead with
    | .ok df => finishLoad f.meta.path df
    | _ => .error .readErr
  else if f.meta.ext = ".json".data then
    match f.jsonRead with
    | .ok df => finishLoad f.meta.path df
    | _ => .error .readErr
  else .error (.valueErr ("Unsupported file type: ".data ++ f.meta.ext))

/-- `read_file(file_path, max_rows, interactive)` (data_loader.py lines
40-126).  `proceed` models the user's answer to the large-file
confirmation prompt (`input(...)` answered with yes). -/
def readFile (f : SrcFile) (interactive proceed : Bool) : Except ReadFailure Frame :=
  let s := checkFileSafety f.meta
  if s.1 = false then .error (.valueErr s.2)
  else if containsFrom "WARNING".data s.2 && interactive && !proceed then
    .error (.valueErr "User cancelled: File too large".data)
  else loadPhase f

/-! ## Column Semantic Classifier (`src/core/data_analyzer.py`)

`_analyze_column_intelligently(column_name, series)` dispatches on the
structural dtype, then walks an ordered keyword chain over the lowercased
column name (first match wins) and formats a description embedding the
column statistics.  Statistics are taken as inputs (the pandas
`min`/`max`/`mean`/`nunique` results); the claims only use integer-valued
series, so values are modelled as `Int` and the Python float formats
`{:.2f}` / `{:,.0f}` / `{:,.2f}` are exact on them. -/

/-- Structural dtype kind: the `pd.api.types.is_*_dtype` dispatch. -/
inductive DtypeKind
  | numeric
  | objectLike
  | datetimeLike
  | boolLike
  | otherKind
deriving DecidableEq

/-- The statistics `_analyze_column_intelligently` computes from the
series before branching. -/
structure SeriesStats where
  kind : DtypeKind
  totalCount : Nat
  uniqueCount : Nat
  minVal : Int
  maxVal : Int
  meanVal : Int
  topValue : List Char
  minDateStr : List Char
  maxDateStr : List Char
  trueCount : Nat
  dtypeName : List Char

/-- `any(term in name_lower for term in kws)`. -/
def anyKeyword (nameLower : List Char) (kws : List (List Char)) : Bool :=
  kws.any (fun k => containsFrom k nameLower)

/-- Thousands grouping of a digit run, rightmost group of three first
(`groupRev ds n` processes the reversed digits with `n` digits emitted
since the last comma). -/
def groupRev : List Char → Nat → List Char
  | [], _ => []
  | c :: cs, n => if n = 3 then ',' :: c :: groupRev cs 1 else c :: groupRev cs (n + 1)

/-- Python `f"{n:,}"` for a natural number. -/
def fmtCommaNat (n : Nat) : List Char :=
  (groupRev (natDigits n).reverse 0).reverse

/-- Python `f"{v:,.0f}"` on an integer value. -/
def fmtComma0 (i : Int) : List Char :=
  if i < 0 then '-' :: fmtCommaNat i.natAbs else fmtCommaNat i.natAbs

/-- Python `f"{v:.2f}"` on an integer value. -/
def fmt2f (i : Int) : List Char := intDigits i ++ ".00".data

/-- Python `f"{v:,.2f}"` on an integer value. -/
def fmtComma2 (i : Int) : List Char := fmtComma0 i ++ ".00".data

/-- The branch of the numeric keyword chain (data_analyzer.py lines
33-67); the spec's `semantic_category` names the branch that produced the
description. -/
inductive NumericCategory
  | temporalYear
  | temporalQuarter
  | temporalMonth
  | temporalDay
  | financialRatio
  | financialRevenue
  | financialCost
  | balanceSheet
  | profitability
  | identifier
  | genericNumeric
deriving DecidableEq

/-- The ordered first-match-wins dispatch of the numeric branch
(data_analyzer.py lines 33-67). -/
def classifyNumeric (nameLower : List Char) (uniqueCount totalCount : Nat) : NumericCategory :=
  if anyKeyword nameLower ["year".data, "yr".data] then .temporalYear
  else if anyKeyword nameLower ["quarter".data, "qtr".data, "q".data] then .temporalQuarter
  else if anyKeyword nameLower ["month".data, "mon".data] then .temporalMonth
  else if anyKeyword nameLower ["day".data, "date".data] then .temporalDay
  else if anyKeyword nameLower ["ratio".data, "rate".data, "percent".data, "pct".data] then .financialRatio
  else if anyKeyword nameLower ["revenue".data, "sales".data, "income".data] then .financialRevenue
  else if anyKeyword nameLower ["cost".data, "expense".data, "expenditure".data] then .financialCost
  else if anyKeyword nameLower ["asset".data, "liability".data, "equity".data] then .balanceSheet
  else if anyKeyword nameLower ["profit".data, "margin".data, "earnings".data] then .profitability
  else if uniqueCount = totalCount || containsFrom "id".data nameLower then .identifier
  else .genericNumeric

/-- The description string each numeric branch returns
(data_analyzer.py lines 34-67). -/
def numericDescription (cat : NumericCategory) (s : SeriesStats) : List Char :=
  match cat with
  | .temporalYear =>
    "Temporal identifier representing calendar year. Range: ".data ++ intDigits s.minVal ++
      "-".data ++ intDigits s.maxVal ++
      ". Used for time-series analysis and year-over-year comparisons.".data
  | .temporalQuarter =>
    "Quarterly time period identifier (1-4). Enables seasonal analysis and quarterly performance tracking.".data
  | .temporalMonth =>
    "Monthly identifier (1-12). Supports monthly trend analysis and seasonal pattern detection.".data
  | .temporalDay =>
    "Daily identifier. Supports granular time-series analysis and day-level patterns.".data
  | .financialRatio =>
    "Financial ratio/rate metric. Range: ".data ++ fmt2f s.minVal ++ " to ".data ++
      fmt2f s.maxVal ++ ", Avg: ".data ++ fmt2f s.meanVal ++
      ". Used for financial health assessment and comparative analysis.".data
  | .financialRevenue =>
    "Revenue/income metric. Range: ".data ++ fmtComma0 s.minVal ++ " to ".data ++
      fmtComma0 s.maxVal ++
      ". Key performance indicator for financial performance evaluation.".data
  | .financialCost =>
    "Cost/expense metric. Range: ".data ++ fmtComma0 s.minVal ++ " to ".data ++
      fmtComma0 s.maxVal ++ ". Used for cost analysis and budgeting.".data
  | .balanceSheet =>
    "Balance sheet item. Range: ".data ++ fmtComma0 s.minVal ++ " to ".data ++
      fmtComma0 s.maxVal ++ ". Critical for financial position analysis.".data
  | .profitability =>
    "Profitability metric. Range: ".data ++ fmt2f s.minVal ++ " to ".data ++
      fmt2f s.maxVal ++ ". Measures business profitability and operational efficiency.".data
  | .identifier =>
    "Unique identifier with ".data ++ fmtCommaNat s.uniqueCount ++
      " distinct values. Used for record identification and data joining.".data
  | .genericNumeric =>
    "Numeric metric. Range: ".data ++ fmtComma2 s.minVal ++ " to ".data ++
      fmtComma2 s.maxVal ++ ", Mean: ".data ++ fmtComma2 s.meanVal ++ ". ".data ++
      fmtCommaNat s.uniqueCount ++ " unique values.".data

/-- The branch of the categorical keyword chain (data_analyzer.py lines
77-93). -/
inductive ObjectCategory
  | identifierCat
  | descriptiveLabel
  | classification
  | statusCat
  | geography
  | genericCategorical
deriving DecidableEq

/-- The ordered dispatch of the categorical branch (lines 77-93); note the
`unique_count == total_count` heuristic does not appear here. -/
def classifyObject (nameLower : List Char) : ObjectCategory :=
  if anyKeyword nameLower ["id".data, "code".data, "key".data, "carrier".data, "ticker".data, "symbol".data] then .identifierCat
  else if anyKeyword nameLower ["name".data, "title".data, "label".data] then .descriptiveLabel
  else if anyKeyword nameLower ["category".data, "type".data, "class".data, "group".data] then .classification
  else if anyKeyword nameLower ["status".data, "state".data, "flag".data] then .statusCat
  else if anyKeyword nameLower ["location".data, "region".data, "city".data, "country".data] then .geography
  else .genericCategorical

/-- The description string each categorical branch returns (lines 78-93). -/
def objectDescription (cat : ObjectCategory) (s : SeriesStats) : List Char :=
  match cat with
  | .identifierCat =>
    "Categorical identifier. ".data ++ natDigits s.uniqueCount ++ " unique values (e.g., '".data ++
      s.topValue ++ "'). Used for grouping and entity identification.".data
  | .descriptiveLabel =>
    "Descriptive name/label field. ".data ++ natDigits s.uniqueCount ++
      " unique values. Used for display and reference purposes.".data
  | .classification =>
    "Classification/category field. ".data ++ natDigits s.uniqueCount ++
      " categories (most common: '".data ++ s.topValue ++
      "'). Enables segmentation and comparative analysis.".data
  | .statusCat =>
    "Status/state indicator. ".data ++ natDigits s.uniqueCount ++ " possible states (e.g., '".data ++
      s.topValue ++ "'). Tracks entity state or condition.".data
  | .geography =>
    "Geographic identifier. ".data ++ natDigits s.uniqueCount ++
      " locations. Supports geographic analysis and regional comparisons.".data
  | .genericCategorical =>
    "Categorical text field. ".data ++ natDigits s.uniqueCount ++ " unique values (most common: '".data ++
      s.topValue ++ "'). Useful for grouping and filtering.".data

/-- `f"{true_pct:.1f}"` for `true_count / total_count * 100` (rendered by
truncation to tenths; a zero total yields 0 as in the source guard). -/
def fmtPct1 (num den : Nat) : List Char :=
  let tenths := if den = 0 then 0 else num * 1000 / den
  natDigits (tenths / 10) ++ '.' :: digitChar tenths :: []

/-- `_analyze_column_intelligently(column_name, series)`
(data_analyzer.py lines 5-110): dtype dispatch, then the keyword chains
over the lowercased name. -/
def analyzeColumnIntelligently (columnName : List Char) (s : SeriesStats) : List Char :=
  let nameLower := columnName.map Char.toLower
  match s.kind with
  | .numeric => numericDescription (classifyNumeric nameLower s.uniqueCount s.totalCount) s
  | .objectLike => objectDescription (classifyObject nameLower) s
  | .datetimeLike =>
    "Datetime field. Range: ".data ++ s.minDateStr ++ " to ".data ++ s.maxDateStr ++
      ". Enables temporal analysis and time-based filtering.".data
  | .boolLike =>
    "Boolean flag. ".data ++ fmtPct1 s.trueCount s.totalCount ++ "% True, ".data ++
      fmtPct1 (s.totalCount - s.trueCount) s.totalCount ++
      "% False. Used for binary classification and filtering.".data
  | .otherKind =>
    "Data field of type ".data ++ s.dtypeName ++ ". ".data ++ natDigits s.uniqueCount ++
      " unique values. Requires domain knowledge for interpretation.".data

/-! ## Context Extractor (`src/core/context_collector.py`)

`read_input_folder_context` reads `Dataset_Background.txt` and
`message.txt` (both stripped), and hands their contents to
`_parse_dataset_background` when the background is truthy and longer than
50 characters; otherwise it returns `None`.  The file-system discovery is
the caller's environment; the embedding models the decision on the two
text blocks, which is what the claims quantify over. -/

/-- Modelled from the spec: the `DatasetContext` record (the spec's
`ContextRecord`, §3) — the dataclass itself lives in
`smart_question_generator.py`, which is not under `src/`; its fields are
those of the constructor call in `context_collector.py` lines 141-148. -/
structure DatasetContext where
  subjectArea : List Char
  analysisObjectives : List (List Char)
  targetAudience : List Char
  businessContext : List Char
  datasetBackground : List Char
  timeSensitivity : List Char
deriving DecidableEq

/-- Accumulator of the `for line in lines` loop of
`_parse_dataset_background` (lines 96-131). -/
structure ParseState where
  subjectArea : List Char
  objectives : List (List Char)
  audience : List Char
  timeSensitivity : List Char

/-- One iteration of the parsing loop (context_collector.py lines 96-131):
the line is stripped, then the four independent keyword groups update
their fields (subject/audience/urgency overwrite, objectives append). -/
def parseLineStep (st : ParseState) (rawLine : List Char) : ParseState :=
  let line := pstrip rawLine
  let subj :=
    if anyKeyword line ["financial".data, "finance".data, "asset".data, "revenue".data, "profit".data] then
      "financial analysis".data
    else if anyKeyword line ["sales".data, "revenue".data, "pipeline".data, "customer".data] then
      "sales performance".data
    else if anyKeyword line ["marketing".data, "campaign".data, "brand".data, "customer acquisition".data] then
      "marketing analytics".data
    else if anyKeyword line ["operational".data, "operations".data, "efficiency".data, "process".data] then
      "operational analytics".data
    else st.subjectArea
  let objs := st.objectives
    ++ (if containsFrom "risk".data line && containsFrom "assessment".data line then
          ["risk assessment".data] else [])
    ++ (if containsFrom "performance".data line &&
          (containsFrom "evaluation".data line || containsFrom "analysis".data line) then
          ["performance evaluation".data] else [])
    ++ (if containsFrom "trend".data line then ["trend analysis".data] else [])
    ++ (if containsFrom "optimization".data line then ["optimization analysis".data] else [])
  let aud :=
    if containsFrom "executive".data line then "executives".data
    else if containsFrom "manager".data line then "managers".data
    else if containsFrom "analyst".data line then "analysts".data
    else st.audience
  let ts :=
    if containsFrom "urgent".data line || containsFrom "high".data line then "high".data
    else if containsFrom "low".data line then "low".data
    else st.timeSensitivity
  ⟨subj, objs, aud, ts⟩

/-- `_parse_dataset_background(background_text, message_text)`
(context_collector.py lines 73-155): lowercase and split the background,
fold the keyword loop from the documented defaults, inject a default
objective when none matched, and synthesize the business context from
bounded prefixes of the inputs. -/
def parseDatasetBackground (backgroundText messageText : List Char) : DatasetContext :=
  let lines := splitLines (backgroundText.map Char.toLower)
  let st := lines.foldl parseLineStep
    ⟨"general analysis".data, [], "analysts".data, "medium".data⟩
  let objectives := if st.objectives = [] then ["general analysis".data] else st.objectives
  let businessContext0 :=
    if 500 < backgroundText.length then backgroundText.take 500 ++ "...".data
    else backgroundText
  let businessContext :=
    if messageText ≠ [] then
      "Senior Instructions: ".data ++ messageText.take 200 ++ "... | Background: ".data ++
        backgroundText.take 300 ++ "...".data
    else businessContext0
  ⟨st.subjectArea, objectives, st.audience, businessContext, backgroundText, st.timeSensitivity⟩

/-- The decision of `read_input_folder_context` on the two stripped text
blocks (context_collector.py lines 60-67): parse when the background is
nonempty and longer than 50 characters, else `None`; the parsed record is
always truthy, so it is returned as-is. -/
def readInputFolderContext (datasetBackground seniorMessage : List Char) : Option DatasetContext :=
  if datasetBackground ≠ [] ∧ 50 < datasetBackground.length then
    some (parseDatasetBackground datasetBackground seniorMessage)
  else none

/-! ## Rate-limit switch and the generation dispatch in `main`

`_detect_rate_limiting` (main.py lines 470-474) ignores all state and
returns `True`.  In `main` (lines 1004-1031), when the assembled task list
is nonempty the results come from `_generate_offline_results` when
`_detect_rate_limiting()` holds and from `run_crew_standard` otherwise. -/

def detectRateLimiting : Bool := true

/-- Which path of step 8 of `main` produces the task results. -/
inductive TaskRunPath
  | offlineResults
  | crewStandard
  | skippedNoTasks
deriving DecidableEq

/-- The dispatch of main.py lines 1004-1031, as a function of whether any
tasks were assembled. -/
def mainTaskRunPath (hasTasks : Bool) : TaskRunPath :=
  if hasTasks then
    if detectRateLimiting then .offlineResults else .crewStandard
  else .skippedNoTasks

/-! ## Supporting lemmas -/

theorem prefixMatch_self_append (s t : List Char) : prefixMatch s (s ++ t) = true := by
  induction s with
  | nil => rfl
  | cons a as ih => simp [prefixMatch, ih]

theorem prefixMatch_append_of_prefixMatch (s a b : List Char)
    (h : prefixMatch s a = true) : prefixMatch s (a ++ b) = true := by
  induction s generalizing a with
  | nil => rfl
  | cons c cs ih =>
    cases a with
    | nil => simp [prefixMatch] at h
    | cons x xs =>
      simp [prefixMatch] at h ⊢
      exact ⟨h.1, ih xs h.2⟩

theorem containsFrom_of_prefixMatch (sub l : List Char)
    (h : prefixMatch sub l = true) : containsFrom sub l = true := by
  cases l with
  | nil => simpa [containsFrom] using h
  | cons c cs => simp [containsFrom, h]

theorem strContains_left (s q : List Char) : strContains (s ++ q) s :=
  containsFrom_of_prefixMatch s (s ++ q) (prefixMatch_self_append s q)

theorem strContains_append_right (p t sub : List Char)
    (h : strContains t sub) : strContains (p ++ t) sub := by
  induction p with
  | nil => simpa using h
  | cons c cs ih =>
    show containsFrom sub (c :: (cs ++ t)) = true
    simp [containsFrom]
    right
    exact ih

theorem strContains_mid (p s q : List Char) : strContains (p ++ (s ++ q)) s :=
  strContains_append_right p (s ++ q) s (strContains_left s q)

theorem mem_of_containsFrom_cons (c : Char) (t l : List Char)
    (h : containsFrom (c :: t) l = true) : c ∈ l := by
  induction l with
  | nil => simp [containsFrom, prefixMatch] at h
  | cons x xs ih =>
    simp [containsFrom] at h
    rcases h with h | h
    · simp [prefixMatch] at h
      simp [h.1]
    · simp [ih h]

theorem containsFrom_eq_false_of_head_not_mem (c : Char) (t l : List Char)
    (h : c ∉ l) : containsFrom (c :: t) l = false := by
  by_contra hne
  exact h (mem_of_containsFrom_cons c t l (by
    cases he : containsFrom (c :: t) l
    · exact absurd he hne
    · rfl))

theorem digitChar_ne_W (d : Nat) : digitChar d ≠ 'W' := by
  unfold digitChar
  split <;> first | decide | (split <;> first | decide | (split <;> first | decide |
    (split <;> first | decide | (split <;> first | decide | (split <;> first | decide |
    (split <;> first | decide | (split <;> first | decide | (split <;> decide))))))))

theorem W_not_mem_natDigitsAux (fuel n : Nat) : 'W' ∉ natDigitsAux fuel n := by
  induction fuel generalizing n with
  | zero => simp [natDigitsAux]
  | succ k ih =>
    unfold natDigitsAux
    split
    · simp
    · intro hmem
      rcases List.mem_append.mp hmem with h | h
      · exact ih (n / 10) h
      · simp at h
        exact digitChar_ne_W n h.symm

theorem W_not_mem_natDigits (n : Nat) : 'W' ∉ natDigits n := by
  unfold natDigits
  split
  · decide
  · exact W_not_mem_natDigitsAux n n

theorem W_not_mem_fmtMB2 (bytes : Nat) : 'W' ∉ fmtMB2 bytes := by
  unfold fmtMB2
  intro hmem
  rcases List.mem_append.mp hmem with h | h
  · exact W_not_mem_natDigits _ h
  · rcases List.mem_cons.mp h with h1 | h2
    · exact (by decide : 'W' ≠ '.') h1
    rcases List.mem_cons.mp h2 with h1 | h3
    · exact digitChar_ne_W _ h1.symm
    rcases List.mem_cons.mp h3 with h1 | h4
    · exact digitChar_ne_W _ h1.symm
    · simp at h4

theorem splitLines_ne_nil (l : List Char) : splitLines l ≠ [] := by
  cases l with
  | nil => simp [splitLines]
  | cons c cs =>
    unfold splitLines
    split
    · simp
    · cases h : splitLines cs <;> simp

theorem splitLines_no_newline (a : List Char) (h : '\n' ∉ a) : splitLines a = [a] := by
  induction a with
  | nil => rfl
  | cons c cs ih =>
    have hc : (c == '\n') = false := by
      cases hb : c == '\n'
      · rfl
      · exact absurd (by simp [List.mem_cons]; left; exact (beq_iff_eq.mp hb).symm) h
    have ih' := ih (fun hm => h (List.mem_cons_of_mem c hm))
    conv_lhs => rw [splitLines]
    rw [if_neg (by simp [hc]), ih']

theorem splitLines_append_newline (a rest : List Char) (h : '\n' ∉ a) :
    splitLines (a ++ '\n' :: rest) = a :: splitLines rest := by
  induction a with
  | nil => simp [splitLines]
  | cons c cs ih =>
    have hc : (c == '\n') = false := by
      cases hb : c == '\n'
      · rfl
      · exact absurd (by simp [List.mem_cons]; left; exact (beq_iff_eq.mp hb).symm) h
    have ih' := ih (fun hm => h (List.mem_cons_of_mem c hm))
    show splitLines (c :: (cs ++ '\n' :: rest)) = (c :: cs) :: splitLines rest
    conv_lhs => rw [splitLines]
    rw [if_neg (by simp [hc]), ih']

theorem joinWith_cons_cons (sep l l2 : List Char) (ls : List (List Char)) :
    joinWith sep (l :: l2 :: ls) = l ++ (sep ++ joinWith sep (l2 :: ls)) := by
  show l ++ sep ++ joinWith sep (l2 :: ls) = _
  rw [List.append_assoc]

theorem splitLines_joinWith (L : List (List Char)) (hne : L ≠ [])
    (h : ∀ l ∈ L, '\n' ∉ l) :
    splitLines (joinWith ['\n'] L) = L := by
  induction L with
  | nil => exact absurd rfl hne
  | cons l ls ih =>
    cases ls with
    | nil => exact splitLines_no_newline l (h l (by simp))
    | cons l2 ls2 =>
      rw [joinWith_cons_cons]
      show splitLines (l ++ '\n' :: joinWith ['\n'] (l2 :: ls2)) = l :: l2 :: ls2
      rw [splitLines_append_newline _ _ (h l (by simp))]
      rw [ih (by simp) (fun x hx => h x (List.mem_cons_of_mem l hx))]

/-- The extracted items once the loop has finished: collected chunks plus
the still-open item, if any (main.py lines 400-402). -/
theorem extractQuestionLines_eq (text : List Char) :
    extractQuestionLines text =
      (let fin := (splitLines text).foldl extractStep ⟨[], [], false⟩
       fin.qs ++ (if fin.cur ≠ [] then [joinWith ['\n'] fin.cur] else [])) := rfl

/-- Items of a final state. -/
def itemsAfter (st : ExtractState) : List (List Char) :=
  st.qs ++ (if st.cur ≠ [] then [joinWith ['\n'] st.cur] else [])

theorem extractQuestionLines_itemsAfter (text : List Char) :
    extractQuestionLines text =
      itemsAfter ((splitLines text).foldl extractStep ⟨[], [], false⟩) := rfl

theorem extractStep_numbered (qs : List (List Char)) (c : List Char)
    (l : List Char) (hl : matchNumberedStrict l = true) :
    extractStep ⟨qs, [c], true⟩ l = ⟨qs ++ [c], [l], true⟩ := by
  simp [extractStep, hl, joinWith]

theorem extractStep_skip (qs : List (List Char)) (l : List Char)
    (hl : matchNumberedStrict l = false) :
    extractStep ⟨qs, [], false⟩ l = ⟨qs, [], false⟩ := by
  simp [extractStep, hl]

theorem foldl_extractStep_numbered (L : List (List Char))
    (hL : ∀ l ∈ L, matchNumberedStrict l = true) (qs : List (List Char)) (c : List Char) :
    itemsAfter (L.foldl extractStep ⟨qs, [c], true⟩) = qs ++ c :: L := by
  induction L generalizing qs c with
  | nil => simp [itemsAfter, joinWith]
  | cons l ls ih =>
    show itemsAfter (ls.foldl extractStep (extractStep ⟨qs, [c], true⟩ l)) = qs ++ c :: l :: ls
    rw [extractStep_numbered qs c l (hL l (by simp))]
    rw [ih (fun x hx => hL x (List.mem_cons_of_mem l hx)) (qs ++ [c]) l]
    simp

/-- Extraction over text of the shape `header\n\nq1\nq2\n...\nqn` where the
header is not a numbered line and every `qi` is a single numbered line:
exactly the `qi` are extracted, in order. -/
theorem extract_header_blank_numbered (H : List Char) (qs : List (List Char))
    (hHn : '\n' ∉ H) (hHm : matchNumberedStrict H = false)
    (hne : qs ≠ []) (hqn : ∀ l ∈ qs, '\n' ∉ l)
    (hqm : ∀ l ∈ qs, matchNumberedStrict l = true) :
    extractQuestionLines (H ++ '\n' :: '\n' :: joinWith ['\n'] qs) = qs := by
  rw [extractQuestionLines_itemsAfter]
  have hsplit : splitLines (H ++ '\n' :: '\n' :: joinWith ['\n'] qs) =
      H :: [] :: qs := by
    rw [splitLines_append_newline H _ hHn]
    show H :: splitLines ('\n' :: joinWith ['\n'] qs) = H :: [] :: qs
    unfold splitLines
    rw [if_pos (by rfl)]
    rw [splitLines_joinWith qs hne hqn]
  rw [hsplit]
  cases qs with
  | nil => exact absurd rfl hne
  | cons q1 qrest =>
    show itemsAfter ((q1 :: qrest).foldl extractStep
      (extractStep (extractStep ⟨[], [], false⟩ H) [])) = q1 :: qrest
    rw [extractStep_skip [] H hHm]
    rw [extractStep_skip [] [] (by decide)]
    show itemsAfter (qrest.foldl extractStep (extractStep ⟨[], [], false⟩ q1)) = q1 :: qrest
    have hq1 : matchNumberedStrict q1 = true := hqm q1 (by simp)
    have hstep : extractStep ⟨[], [], false⟩ q1 = ⟨[], [q1], true⟩ := by
      simp [extractStep, hq1]
    rw [hstep]
    exact foldl_extractStep_numbered qrest
      (fun x hx => hqm x (List.mem_cons_of_mem q1 hx)) [] q1

theorem renderNumbered_get? (qs : List (List Char)) (s i : Nat) :
    (renderNumbered s qs).get? i =
      (qs.get? i).map (fun q => natDigits (s + i) ++ '.' :: ' ' :: q) := by
  induction qs generalizing s i with
  | nil => simp [renderNumbered]
  | cons q qrest ih =>
    cases i with
    | zero => simp [renderNumbered]
    | succ j =>
      show (renderNumbered (s + 1) qrest).get? j = _
      rw [ih (s + 1) j]
      simp [Nat.add_assoc, Nat.add_comm 1 j]

/-! ## Claim theorems -/

/-- C1: for every input text and requested count ≥ 1, when the Normalizer
extracts at least `requested_count` items, the kept item list is exactly the
first `requested_count` extracted items in order (the excess is discarded)
and has length `requested_count`; and the final output block numbers its
items with contiguous positions starting at 1 (the renumbering step of
`format_output_final` labels the i-th formatted question with `i+1`). -/
theorem C1_exact_count_and_positions (text : List Char) (k : Nat)
    (hk : 1 ≤ k) (hlen : k ≤ (extractQuestionLines text).length) :
    trimmedQuestionLines text k = (extractQuestionLines text).take k ∧
    (trimmedQuestionLines text k).length = k ∧
    ∀ (qs : List (List Char)) (i : Nat) (q : List Char),
      qs.get? i = some q →
      (renderNumbered 1 qs).get? i = some (natDigits (i + 1) ++ '.' :: ' ' :: q) := by
  have htake : trimmedQuestionLines text k = (extractQuestionLines text).take k := by
    by_cases hc : (extractQuestionLines text).length > k
    · simp [trimmedQuestionLines, hc]
    · have hEq : (extractQuestionLines text).length ≤ k := by omega
      simp [trimmedQuestionLines, hc, List.take_of_length_le hEq]
  refine ⟨htake, ?_, ?_⟩
  · rw [htake, List.length_take]
    omega
  · intro qs i q hq
    rw [renderNumbered_get?, hq]
    simp [Nat.add_comm 1 i]

/-- C1 witness: at the text `"1. A\n2. B\n3. C"` with requested count 2,
the kept items are the first two extracted items and the renumbering labels
the first formatted question with position 1. -/
theorem C1_exact_count_and_positions_witness :
    trimmedQuestionLines "1. A\n2. B\n3. C".data 2 = ["1. A".data, "2. B".data] ∧
    (trimmedQuestionLines "1. A\n2. B\n3. C".data 2).length = 2 ∧
    (renderNumbered 1 ["First".data]).get? 0 = some ("1. First".data) := by
  have h := C1_exact_count_and_positions "1. A\n2. B\n3. C".data 2 (by decide) (by decide)
  refine ⟨h.1.trans (by decide), h.2.1, ?_⟩
  have h3 := h.2.2 ["First".data] 0 "First".data rfl
  simpa using h3

/-- C2: when fewer items are extracted than requested, the Normalizer does
not trim, pad or invent: the kept item list is exactly the extracted list
(and the function is total, so nothing is raised). -/
theorem C2_short_returns_extracted (text : List Char) (k : Nat)
    (h : (extractQuestionLines text).length < k) :
    trimmedQuestionLines text k = extractQuestionLines text ∧
    (trimmedQuestionLines text k).length = (extractQuestionLines text).length := by
  have : ¬ (extractQuestionLines text).length > k := by omega
  unfold trimmedQuestionLines
  rw [if_neg this]
  exact ⟨rfl, rfl⟩

/-- C2 witness: the text `"1) Alpha\n2) Beta\n3) Gamma"` with requested
count 5 yields exactly the 3 extracted items, none invented. -/
theorem C2_short_returns_extracted_witness :
    (extractQuestionLines "1) Alpha\n2) Beta\n3) Gamma".data).length = 3 ∧
    trimmedQuestionLines "1) Alpha\n2) Beta\n3) Gamma".data 5 =
      ["1) Alpha".data, "2) Beta".data, "3) Gamma".data] := by
  have h := C2_short_returns_extracted "1) Alpha\n2) Beta\n3) Gamma".data 5 (by decide)
  exact ⟨by decide, h.1.trans (by decide)⟩

/-- The scenario text of C3. -/
def c3Text : List Char := "1. First question\n\n2. Second\nquestion continued\n\n3. Third".data

/-- A representative task header for the formatting stage of C3. -/
def c3Header : List Char := "--- Enhanced Questions for data.csv ---".data

/-- C3 counterexample: on the scenario text with requested count 2 the
pipeline does not produce the claimed items
`["First question", "Second question continued"]`: the Normalizer keeps the
numbering tokens verbatim, and the formatting stage strips/renumbers per
line, splitting the multi-line item, so the output items are
`["First question", "Second", "question continued"]`. -/
theorem C3_counterexample :
    formatQuestionLines c3Header (trimQuestionsToExactCount c3Text 2) ≠
      ["First question".data, "Second question continued".data] ∧
    trimmedQuestionLines c3Text 2 =
      ["1. First question".data, "2. Second\nquestion continued".data] := by
  decide

/-- C3 amended: the Normalizer keeps the first two extracted items verbatim
(numbering tokens included) and discards the third; the formatting stage of
`format_output_final` then strips a leading numbering token from each line
and renumbers the lines (not the items) contiguously from 1, so the
multi-line second item is split into two output items and the final block
is `1. First question / 2. Second / 3. question continued`. -/
theorem C3_linewise_renumbering :
    trimmedQuestionLines c3Text 2 = (extractQuestionLines c3Text).take 2 ∧
    trimQuestionsToExactCount c3Text 2 =
      "\n\n1. First question\n\n2. Second\nquestion continued".data ∧
    formatQuestionLines c3Header (trimQuestionsToExactCount c3Text 2) =
      ["First question".data, "Second".data, "question continued".data] ∧
    renderNumbered 1 (formatQuestionLines c3Header (trimQuestionsToExactCount c3Text 2)) =
      ["1. First question".data, "2. Second".data, "3. question continued".data] := by
  decide

/-- C10: the rate-limiting detector is the constant `True`, so whenever
`main` reaches question generation (a nonempty task list), the results come
from the offline template generator and the `run_crew_standard` branch is
never taken. -/
theorem C10_offline_path_only :
    detectRateLimiting = true ∧
    mainTaskRunPath true = .offlineResults ∧
    ∀ hasTasks : Bool, mainTaskRunPath hasTasks ≠ .crewStandard := by
  refine ⟨rfl, rfl, ?_⟩
  intro hasTasks
  cases hasTasks <;> simp [mainTaskRunPath, detectRateLimiting]

/-! ### Offline generator lemmas (C4) -/

/-- Decidable check that a template list is numbered contiguously from 1:
item `i` (0-based) starts with `str(i+1)` followed by `". "`. -/
def numberedFrom1 (qs : List (List Char)) : Bool :=
  (List.range qs.length).all (fun i =>
    match qs.get? i with
    | some q => prefixMatch (natDigits (i + 1) ++ '.' :: ' ' :: []) q
    | none => false)

theorem numberedFrom1_spec (qs : List (List Char)) (h : numberedFrom1 qs = true)
    (i : Nat) (q : List Char) (hq : qs.get? i = some q) :
    prefixMatch (natDigits (i + 1) ++ '.' :: ' ' :: []) q = true := by
  have hi : i < qs.length := by
    rcases List.get?_eq_some.mp hq with ⟨hlt, _⟩
    exact hlt
  have := (List.all_eq_true.mp h) i (by simpa using List.mem_range.mpr hi)
  rw [hq] at this
  exact this

theorem offlineIndividualQuestions_length (name : List Char) :
    (offlineIndividualQuestions name).length = 15 := by
  unfold offlineIndividualQuestions
  split
  · rfl
  · split
    · rfl
    · split <;> rfl

theorem extract_offlineIndividual (name : List Char) (k : Nat) (hk : 1 ≤ k)
    (hH1 : '\n' ∉ "--- Enhanced Questions for ".data ++ name ++ " ---".data)
    (hH2 : matchNumberedStrict ("--- Enhanced Questions for ".data ++ name ++ " ---".data) = false)
    (hq1 : ∀ l ∈ offlineIndividualQuestions name, '\n' ∉ l)
    (hq2 : ∀ l ∈ offlineIndividualQuestions name, matchNumberedStrict l = true) :
    extractQuestionLines (generateOfflineIndividualResult name k) =
      (offlineIndividualQuestions name).take k := by
  have hne : (offlineIndividualQuestions name).take k ≠ [] := by
    apply List.ne_nil_of_length_pos
    rw [List.length_take, offlineIndividualQuestions_length]
    omega
  have hshape : generateOfflineIndividualResult name k =
      ("--- Enhanced Questions for ".data ++ name ++ " ---".data) ++ '\n' :: '\n' ::
        joinWith ['\n'] ((offlineIndividualQuestions name).take k) := by
    unfold generateOfflineIndividualResult
    simp [List.append_assoc]
  rw [hshape]
  exact extract_header_blank_numbered _ _ hH1 hH2 hne
    (fun l hl => hq1 l (List.take_subset k _ hl))
    (fun l hl => hq2 l (List.take_subset k _ hl))

theorem extract_offlineComparison (k : Nat) (hk : 1 ≤ k) :
    extractQuestionLines (generateOfflineComparisonResult k) =
      offlineComparisonQuestions.take k := by
  have hne : offlineComparisonQuestions.take k ≠ [] := by
    apply List.ne_nil_of_length_pos
    rw [List.length_take]
    have : offlineComparisonQuestions.length = 10 := rfl
    omega
  have hshape : generateOfflineComparisonResult k =
      "--- Enhanced Comparison Questions ---".data ++ '\n' :: '\n' ::
        joinWith ['\n'] (offlineComparisonQuestions.take k) := rfl
  rw [hshape]
  exact extract_header_blank_numbered _ _ (by decide) (by decide) hne
    (fun l hl => (by decide : ∀ x ∈ offlineComparisonQuestions, '\n' ∉ x) l
      (List.take_subset k _ hl))
    (fun l hl => (by decide : ∀ x ∈ offlineComparisonQuestions, matchNumberedStrict x = true) l
      (List.take_subset k _ hl))

theorem numbered_take (qs : List (List Char)) (h : numberedFrom1 qs = true)
    (k i : Nat) (q : List Char) (hq : (qs.take k).get? i = some q) :
    prefixMatch (natDigits (i + 1) ++ '.' :: ' ' :: []) q = true := by
  have hi : i < (qs.take k).length := by
    rcases List.get?_eq_some.mp hq with ⟨hlt, _⟩
    exact hlt
  have hik : i < k := by
    rw [List.length_take] at hi
    omega
  have : qs.get? i = some q := by
    rw [List.get?_eq_getElem?] at hq ⊢
    rw [← List.getElem?_take_of_lt hik]
    exact hq
  exact numberedFrom1_spec qs h i q this

/-- C4 counterexample: the offline generator slices the fixed 15-entry
(individual) / 10-entry (comparison) template lists, so for a requested
count above the template length the output has fewer items than requested:
at requested count 16 the individual result has 15 items, and at 11 the
comparison result has 10. -/
theorem C4_counterexample :
    (extractQuestionLines (generateOfflineIndividualResult "Unknown Dataset".data 16)).length ≠ 16 ∧
    (extractQuestionLines (generateOfflineIndividualResult "Unknown Dataset".data 16)).length = 15 ∧
    (extractQuestionLines (generateOfflineComparisonResult 11)).length ≠ 11 ∧
    (extractQuestionLines (generateOfflineComparisonResult 11)).length = 10 := by
  have h1 := extract_offlineIndividual "Unknown Dataset".data 16 (by omega)
    (by decide) (by decide) (by decide) (by decide)
  have h2 := extract_offlineComparison 11 (by omega)
  have hc : offlineComparisonQuestions.length = 10 := rfl
  rw [h1, h2]
  refine ⟨?_, ?_, ?_, ?_⟩ <;>
    simp [List.length_take, offlineIndividualQuestions_length, hc]

/-- C4 amended: for every dataset-category hint (the four dataset names the
offline path can produce, plus the comparison set) and every requested
count within the template length (15 individual, 10 comparison), the
offline result is the pre-numbered template list truncated by slicing, and
it already satisfies the Normalizer's output contract: extracting items
from it yields exactly the requested count of items, each numbered
contiguously from 1 (`i-th` item carries the prefix `"i. "`).  For counts
beyond the template length the whole template list is returned (fewer
items than requested; see the counterexample). -/
theorem C4_offline_templates (name : List Char) (hname : name ∈ offlineDatasetNames)
    (k : Nat) (hk1 : 1 ≤ k) (hk15 : k ≤ 15) :
    extractQuestionLines (generateOfflineIndividualResult name k) =
      (offlineIndividualQuestions name).take k ∧
    (extractQuestionLines (generateOfflineIndividualResult name k)).length = k ∧
    (∀ i q, (extractQuestionLines (generateOfflineIndividualResult name k)).get? i = some q →
      prefixMatch (natDigits (i + 1) ++ '.' :: ' ' :: []) q = true) ∧
    ∀ k2, 1 ≤ k2 → k2 ≤ 10 →
      extractQuestionLines (generateOfflineComparisonResult k2) =
        offlineComparisonQuestions.take k2 ∧
      (extractQuestionLines (generateOfflineComparisonResult k2)).length = k2 ∧
      ∀ i q, (extractQuestionLines (generateOfflineComparisonResult k2)).get? i = some q →
        prefixMatch (natDigits (i + 1) ++ '.' :: ' ' :: []) q = true := by
  have hcomp : ∀ k2, 1 ≤ k2 → k2 ≤ 10 →
      extractQuestionLines (generateOfflineComparisonResult k2) =
        offlineComparisonQuestions.take k2 ∧
      (extractQuestionLines (generateOfflineComparisonResult k2)).length = k2 ∧
      ∀ i q, (extractQuestionLines (generateOfflineComparisonResult k2)).get? i = some q →
        prefixMatch (natDigits (i + 1) ++ '.' :: ' ' :: []) q = true := by
    intro k2 h1 h2
    have he := extract_offlineComparison k2 h1
    refine ⟨he, ?_, ?_⟩
    · rw [he, List.length_take]
      have : offlineComparisonQuestions.length = 10 := rfl
      omega
    · intro i q hq
      rw [he] at hq
      exact numbered_take offlineComparisonQuestions (by decide) k2 i q hq
  have hind : extractQuestionLines (generateOfflineIndividualResult name k) =
      (offlineIndividualQuestions name).take k := by
    simp only [offlineDatasetNames, List.mem_cons, List.not_mem_nil, or_false] at hname
    rcases hname with rfl | rfl | rfl | rfl <;>
      exact extract_offlineIndividual _ k hk1 (by decide) (by decide) (by decide) (by decide)
  have hnum : numberedFrom1 (offlineIndividualQuestions name) = true := by
    simp only [offlineDatasetNames, List.mem_cons, List.not_mem_nil, or_false] at hname
    rcases hname with rfl | rfl | rfl | rfl <;> decide
  refine ⟨hind, ?_, ?_, hcomp⟩
  · rw [hind, List.length_take, offlineIndividualQuestions_length]
    omega
  · intro i q hq
    rw [hind] at hq
    exact numbered_take _ hnum k i q hq

/-- C4 witness: the amended theorem applied at the generic dataset name and
requested count 3, and at comparison count 2. -/
theorem C4_offline_templates_witness :
    (extractQuestionLines (generateOfflineIndividualResult "Unknown Dataset".data 3)).length = 3 ∧
    (extractQuestionLines (generateOfflineComparisonResult 2)).length = 2 := by
  have h := C4_offline_templates "Unknown Dataset".data (by decide) 3 (by omega) (by omega)
  exact ⟨h.2.1, (h.2.2.2 2 (by omega) (by omega)).2.1⟩

/-! ### Ingestion validator lemmas (C5, C6) -/

theorem W_not_mem_okMsg (n : Nat) :
    'W' ∉ "File size OK: ".data ++ (fmtMB2 n ++ "MB".data) := by
  intro hmem
  rcases List.mem_append.mp hmem with h | h
  · exact (by decide : 'W' ∉ "File size OK: ".data) h
  · rcases List.mem_append.mp h with h | h
    · exact W_not_mem_fmtMB2 n h
    · exact (by decide : 'W' ∉ "MB".data) h

theorem readFile_reject (f : SrcFile) (msg : List Char)
    (hmsg : checkFileSafety f.meta = (false, msg)) (i p : Bool) :
    readFile f i p = .error (.valueErr msg) := by
  unfold readFile
  rw [hmsg]
  simp

theorem readFile_warn_cancel (f : SrcFile) (msg : List Char)
    (hmsg : checkFileSafety f.meta = (true, msg))
    (hw : containsFrom "WARNING".data msg = true) :
    readFile f true false = .error (.valueErr "User cancelled: File too large".data) := by
  unfold readFile
  rw [hmsg]
  simp [hw]

theorem readFile_warn_proceed (f : SrcFile) (msg : List Char)
    (hmsg : checkFileSafety f.meta = (true, msg)) :
    readFile f true true = loadPhase f := by
  unfold readFile
  rw [hmsg]
  simp

theorem readFile_noninteractive (f : SrcFile) (msg : List Char)
    (hmsg : checkFileSafety f.meta = (true, msg)) (p : Bool) :
    readFile f false p = loadPhase f := by
  unfold readFile
  rw [hmsg]
  simp

theorem readFile_nowarn (f : SrcFile) (msg : List Char)
    (hmsg : checkFileSafety f.meta = (true, msg))
    (hw : containsFrom "WARNING".data msg = false) (i p : Bool) :
    readFile f i p = loadPhase f := by
  unfold readFile
  rw [hmsg]
  simp [hw]

/-- C5: the ingestion size policy has exactly three bands.  Above the
500 MB ceiling the safety check rejects with the too-large message and
`read_file` fails for every file with the same metadata — the result never
depends on the file contents, so no partial read occurs.  Between 50 MB
(exclusive) and 500 MB (inclusive) the file is accepted with a message
carrying the `WARNING` marker, and in interactive mode a declined
confirmation aborts the load while consent (or non-interactive mode)
proceeds.  At or below 50 MB the file is accepted with a message free of
the `WARNING` marker and the load proceeds regardless of interactivity. -/
theorem C5_size_bands (f : SrcFile) (hex : f.meta.pathExists = true)
    (hreg : f.meta.isRegularFile = true) :
    (MAX_FILE_SIZE_MB * 1048576 < f.meta.sizeBytes →
      (checkFileSafety f.meta).1 = false ∧
      strContains (checkFileSafety f.meta).2 "File too large".data ∧
      (∀ g : SrcFile, g.meta = f.meta → ∀ i p : Bool,
        readFile g i p = .error (.valueErr (checkFileSafety f.meta).2))) ∧
    (LARGE_FILE_WARNING_MB * 1048576 < f.meta.sizeBytes →
      f.meta.sizeBytes ≤ MAX_FILE_SIZE_MB * 1048576 →
      (checkFileSafety f.meta).1 = true ∧
      strContains (checkFileSafety f.meta).2 "WARNING".data ∧
      readFile f true false = .error (.valueErr "User cancelled: File too large".data) ∧
      readFile f true true = loadPhase f ∧
      (∀ p : Bool, readFile f false p = loadPhase f)) ∧
    (f.meta.sizeBytes ≤ LARGE_FILE_WARNING_MB * 1048576 →
      (checkFileSafety f.meta).1 = true ∧
      ¬ strContains (checkFileSafety f.meta).2 "WARNING".data ∧
      (∀ i p : Bool, readFile f i p = loadPhase f)) := by
  refine ⟨?_, ?_, ?_⟩
  · intro h
    have hmsg : checkFileSafety f.meta =
        (false, "File too large: ".data ++ (fmtMB1 f.meta.sizeBytes ++ ("MB (max: ".data ++
          (natDigits MAX_FILE_SIZE_MB ++ "MB)".data)))) := by
      simp [checkFileSafety, hex, hreg, h]
    refine ⟨by rw [hmsg], ?_, ?_⟩
    · rw [hmsg]
      exact containsFrom_of_prefixMatch _ _
        (prefixMatch_append_of_prefixMatch _ _ _ (by decide))
    · intro g hg i p
      rw [hmsg]
      exact readFile_reject g _ (by rw [hg, hmsg]) i p
  · intro h1 h2
    have hnot : ¬ (MAX_FILE_SIZE_MB * 1048576 < f.meta.sizeBytes) := by omega
    have hmsg : checkFileSafety f.meta =
        (true, "WARNING: Large file detected (".data ++ (fmtMB1 f.meta.sizeBytes ++
          "MB). Loading may take time.".data)) := by
      simp [checkFileSafety, hex, hreg, hnot, h1]
    have hwlit : containsFrom "WARNING".data
        ("WARNING: Large file detected (".data ++ (fmtMB1 f.meta.sizeBytes ++
          "MB). Loading may take time.".data)) = true :=
      containsFrom_of_prefixMatch _ _
        (prefixMatch_append_of_prefixMatch _ _ _ (by decide))
    refine ⟨by rw [hmsg], by rw [hmsg]; exact hwlit, ?_, ?_, ?_⟩
    · exact readFile_warn_cancel f _ hmsg hwlit
    · exact readFile_warn_proceed f _ hmsg
    · intro p
      exact readFile_noninteractive f _ hmsg p
  · intro h
    have h500 : MAX_FILE_SIZE_MB = 500 := rfl
    have h50 : LARGE_FILE_WARNING_MB = 50 := rfl
    rw [h50] at h
    have hnot1 : ¬ (MAX_FILE_SIZE_MB * 1048576 < f.meta.sizeBytes) := by
      rw [h500]; omega
    have hnot2 : ¬ (LARGE_FILE_WARNING_MB * 1048576 < f.meta.sizeBytes) := by
      rw [h50]; omega
    have hmsg : checkFileSafety f.meta =
        (true, "File size OK: ".data ++ (fmtMB2 f.meta.sizeBytes ++ "MB".data)) := by
      simp [checkFileSafety, hex, hreg, hnot1, hnot2]
    have hnwlit : containsFrom "WARNING".data
        ("File size OK: ".data ++ (fmtMB2 f.meta.sizeBytes ++ "MB".data)) = false := by
      show containsFrom ('W' :: "ARNING".data)
        ("File size OK: ".data ++ (fmtMB2 f.meta.sizeBytes ++ "MB".data)) = false
      exact containsFrom_eq_false_of_head_not_mem _ _ _ (W_not_mem_okMsg f.meta.sizeBytes)
    refine ⟨by rw [hmsg], ?_, ?_⟩
    · intro hcon
      unfold strContains at hcon
      rw [hmsg] at hcon
      rw [hnwlit] at hcon
      exact Bool.false_ne_true hcon
    · intro i p
      exact readFile_nowarn f _ hmsg hnwlit i p

/-- C5 witness: a 600 MB file is rejected independently of its contents, a
100 MB file prompts and a declined confirmation aborts, and a 1 MB file
loads silently. -/
theorem C5_size_bands_witness :
    readFile ⟨⟨"big.csv".data, true, true, 600 * 1048576, ".csv".data⟩,
        fun _ => .unicodeError, .ok ⟨5⟩, .otherError, .otherError⟩ true true =
      .error (.valueErr (checkFileSafety ⟨"big.csv".data, true, true, 600 * 1048576, ".csv".data⟩).2) ∧
    readFile ⟨⟨"mid.csv".data, true, true, 100 * 1048576, ".csv".data⟩,
        fun _ => .ok ⟨7⟩, .ok ⟨7⟩, .otherError, .otherError⟩ true false =
      .error (.valueErr "User cancelled: File too large".data) ∧
    readFile ⟨⟨"small.csv".data, true, true, 1048576, ".csv".data⟩,
        fun _ => .ok ⟨7⟩, .ok ⟨7⟩, .otherError, .otherError⟩ true false =
      loadPhase ⟨⟨"small.csv".data, true, true, 1048576, ".csv".data⟩,
        fun _ => .ok ⟨7⟩, .ok ⟨7⟩, .otherError, .otherError⟩ := by
  refine ⟨?_, ?_, ?_⟩
  · exact ((C5_size_bands _ rfl rfl).1 (by decide)).2.2 _ rfl true true
  · exact ((C5_size_bands _ rfl rfl).2.1 (by decide) (by decide)).2.2.1
  · exact ((C5_size_bands _ rfl rfl).2.2 (by decide)).2.2 true false

/-- C6: CSV ingestion attempts the encodings UTF-8, Latin-1, Windows-1252,
ISO-8859-1, CP1252 in exactly that order (first success wins, a decode
error moves to the next, any other reader error propagates); if every
encoding in the list fails with a decode error, the load retries exactly
once with the byte-error-suppressing read instead of failing, so when that
lossy read parses a nonempty frame the ingestion succeeds — it never aborts
solely because of text encoding. -/
theorem C6_encoding_ladder (f : SrcFile) (hcsv : f.meta.ext = ".csv".data) :
    encodingsList = ["utf-8".data, "latin-1".data, "windows-1252".data,
      "iso-8859-1".data, "cp1252".data] ∧
    (∀ (e : List Char) (rest : List (List Char)),
      (∀ df : Frame, f.csvDecode e = .ok df → tryEncodings f (e :: rest) = .success df) ∧
      (f.csvDecode e = .unicodeError → tryEncodings f (e :: rest) = tryEncodings f rest) ∧
      (f.csvDecode e = .otherError → tryEncodings f (e :: rest) = .raised)) ∧
    ((∀ e ∈ encodingsList, f.csvDecode e = .unicodeError) →
      loadPhase f =
        (match f.csvLossy with
         | .ok df => finishLoad f.meta.path df
         | _ => .error .readErr)) ∧
    (∀ df : Frame, (∀ e ∈ encodingsList, f.csvDecode e = .unicodeError) →
      f.csvLossy = .ok df → df.rows ≠ 0 → loadPhase f = .ok df) := by
  have hexh : (∀ e ∈ encodingsList, f.csvDecode e = .unicodeError) →
      tryEncodings f encodingsList = .exhausted := by
    intro h
    have h1 := h "utf-8".data (by decide)
    have h2 := h "latin-1".data (by decide)
    have h3 := h "windows-1252".data (by decide)
    have h4 := h "iso-8859-1".data (by decide)
    have h5 := h "cp1252".data (by decide)
    simp [encodingsList, tryEncodings, h1, h2, h3, h4, h5]
  refine ⟨rfl, ?_, ?_, ?_⟩
  · intro e rest
    refine ⟨?_, ?_, ?_⟩
    · intro df hdf
      simp [tryEncodings, hdf]
    · intro hu
      simp [tryEncodings, hu]
    · intro ho
      simp [tryEncodings, ho]
  · intro h
    simp [loadPhase, hcsv, hexh h]
  · intro df h hlossy hrows
    simp [loadPhase, hcsv, hexh h, hlossy, finishLoad, hrows]

/-- C6 witness: a CSV file on which every listed encoding raises a decode
error but whose lossy retry parses 3 rows is ingested successfully. -/
theorem C6_encoding_ladder_witness :
    loadPhase ⟨⟨"f.csv".data, true, true, 10, ".csv".data⟩,
        fun _ => .unicodeError, .ok ⟨3⟩, .otherError, .otherError⟩ = .ok ⟨3⟩ := by
  exact (C6_encoding_ladder _ rfl).2.2.2 ⟨3⟩ (fun e _ => rfl) rfl (by decide)

/-! ### Classifier and context-extractor claims (C7, C8, C9) -/

theorem strContains_in_fourth (a b c s q : List Char) :
    strContains (a ++ (b ++ (c ++ (s ++ q)))) s :=
  strContains_append_right a _ _ (strContains_append_right b _ _
    (strContains_append_right c _ _ (strContains_left s q)))

/-- C7 counterexample: a numeric column named `year` whose unique count
equals the row count is classified by the temporal-year keyword rule, not
as an identifier — the `unique_count == row_count` special case only fires
after the temporal and financial keyword rules have failed. -/
theorem C7_counterexample :
    (3 : Nat) = 3 ∧
    classifyNumeric ("year".data.map Char.toLower) 3 3 = .temporalYear ∧
    NumericCategory.temporalYear ≠ NumericCategory.identifier ∧
    analyzeColumnIntelligently "year".data ⟨.numeric, 3, 3, 2013, 2015, 2014, [], [], [], 0, []⟩ =
      "Temporal identifier representing calendar year. Range: 2013-2015. Used for time-series analysis and year-over-year comparisons.".data := by
  decide

/-- C7 amended: for every NUMERIC column whose lowercased name matches none
of the earlier temporal and financial keyword rules, `unique_count ==
row_count` triggers the identifier branch regardless of the rest of the
name; in particular a numeric `transaction_note` column with all-distinct
values is classified as identifier (see the witness).  Text columns and
numeric columns caught by an earlier keyword rule are not covered (see the
counterexample). -/
theorem C7_unique_identifier (name : List Char) (s : SeriesStats)
    (hkind : s.kind = DtypeKind.numeric)
    (h1 : anyKeyword (name.map Char.toLower) ["year".data, "yr".data] = false)
    (h2 : anyKeyword (name.map Char.toLower) ["quarter".data, "qtr".data, "q".data] = false)
    (h3 : anyKeyword (name.map Char.toLower) ["month".data, "mon".data] = false)
    (h4 : anyKeyword (name.map Char.toLower) ["day".data, "date".data] = false)
    (h5 : anyKeyword (name.map Char.toLower) ["ratio".data, "rate".data, "percent".data, "pct".data] = false)
    (h6 : anyKeyword (name.map Char.toLower) ["revenue".data, "sales".data, "income".data] = false)
    (h7 : anyKeyword (name.map Char.toLower) ["cost".data, "expense".data, "expenditure".data] = false)
    (h8 : anyKeyword (name.map Char.toLower) ["asset".data, "liability".data, "equity".data] = false)
    (h9 : anyKeyword (name.map Char.toLower) ["profit".data, "margin".data, "earnings".data] = false)
    (hu : s.uniqueCount = s.totalCount) :
    classifyNumeric (name.map Char.toLower) s.uniqueCount s.totalCount = .identifier ∧
    analyzeColumnIntelligently name s = numericDescription .identifier s := by
  have hcl : classifyNumeric (name.map Char.toLower) s.uniqueCount s.totalCount = .identifier := by
    unfold classifyNumeric
    rw [h1, h2, h3, h4, h5, h6, h7, h8, h9]
    simp [hu]
  refine ⟨hcl, ?_⟩
  simp only [analyzeColumnIntelligently, hkind, hcl]

/-- C7 witness: the numeric `transaction_note` column with 7 rows and 7
distinct values is classified as identifier despite its name. -/
theorem C7_unique_identifier_witness :
    classifyNumeric ("transaction_note".data.map Char.toLower) 7 7 = .identifier ∧
    analyzeColumnIntelligently "transaction_note".data ⟨.numeric, 7, 7, 1, 9, 5, [], [], [], 0, []⟩ =
      numericDescription .identifier ⟨.numeric, 7, 7, 1, 9, 5, [], [], [], 0, []⟩ := by
  have h := C7_unique_identifier "transaction_note".data
    ⟨.numeric, 7, 7, 1, 9, 5, [], [], [], 0, []⟩ rfl
    (by decide) (by decide) (by decide) (by decide) (by decide)
    (by decide) (by decide) (by decide) (by decide) rfl
  exact ⟨h.1, h.2⟩

/-- C9 counterexample: the quarter branch of the numeric classifier returns
a constant description without the column's minimum and maximum — a numeric
column named `quarter` with min 2 and max 3 gets a description containing
neither "2" nor "3". -/
theorem C9_counterexample :
    analyzeColumnIntelligently "quarter".data ⟨.numeric, 3, 2, 2, 3, 2, [], [], [], 0, []⟩ =
      "Quarterly time period identifier (1-4). Enables seasonal analysis and quarterly performance tracking.".data ∧
    ¬ strContains (analyzeColumnIntelligently "quarter".data
        ⟨.numeric, 3, 2, 2, 3, 2, [], [], [], 0, []⟩) "2".data ∧
    ¬ strContains (analyzeColumnIntelligently "quarter".data
        ⟨.numeric, 3, 2, 2, 3, 2, [], [], [], 0, []⟩) "3".data := by
  decide

/-- C9 amended: for every numeric column whose branch embeds the range —
temporal-year, financial-ratio, financial-revenue, financial-cost,
balance-sheet, profitability, generic-numeric — the description contains
the formatted minimum and maximum exactly as computed from the statistics;
the quarter, month, day and identifier branches print no range (see the
counterexample).  The `revenue_2022` scenario holds (see the witness). -/
theorem C9_numeric_range_in_description (name : List Char) (s : SeriesStats)
    (hkind : s.kind = DtypeKind.numeric) :
    (classifyNumeric (name.map Char.toLower) s.uniqueCount s.totalCount = .temporalYear →
      strContains (analyzeColumnIntelligently name s) (intDigits s.minVal) ∧
      strContains (analyzeColumnIntelligently name s) (intDigits s.maxVal)) ∧
    (classifyNumeric (name.map Char.toLower) s.uniqueCount s.totalCount = .financialRatio →
      strContains (analyzeColumnIntelligently name s) (fmt2f s.minVal) ∧
      strContains (analyzeColumnIntelligently name s) (fmt2f s.maxVal)) ∧
    (classifyNumeric (name.map Char.toLower) s.uniqueCount s.totalCount = .financialRevenue →
      strContains (analyzeColumnIntelligently name s) (fmtComma0 s.minVal) ∧
      strContains (analyzeColumnIntelligently name s) (fmtComma0 s.maxVal)) ∧
    (classifyNumeric (name.map Char.toLower) s.uniqueCount s.totalCount = .financialCost →
      strContains (analyzeColumnIntelligently name s) (fmtComma0 s.minVal) ∧
      strContains (analyzeColumnIntelligently name s) (fmtComma0 s.maxVal)) ∧
    (classifyNumeric (name.map Char.toLower) s.uniqueCount s.totalCount = .balanceSheet →
      strContains (analyzeColumnIntelligently name s) (fmtComma0 s.minVal) ∧
      strContains (analyzeColumnIntelligently name s) (fmtComma0 s.maxVal)) ∧
    (classifyNumeric (name.map Char.toLower) s.uniqueCount s.totalCount = .profitability →
      strContains (analyzeColumnIntelligently name s) (fmt2f s.minVal) ∧
      strContains (analyzeColumnIntelligently name s) (fmt2f s.maxVal)) ∧
    (classifyNumeric (name.map Char.toLower) s.uniqueCount s.totalCount = .genericNumeric →
      strContains (analyzeColumnIntelligently name s) (fmtComma2 s.minVal) ∧
      strContains (analyzeColumnIntelligently name s) (fmtComma2 s.maxVal)) := by
  have hd : analyzeColumnIntelligently name s =
      numericDescription (classifyNumeric (name.map Char.toLower) s.uniqueCount s.totalCount) s := by
    simp [analyzeColumnIntelligently, hkind]
  refine ⟨?_, ?_, ?_, ?_, ?_, ?_, ?_⟩ <;> intro hcat <;> rw [hd, hcat] <;>
    simp only [numericDescription, List.append_assoc] <;>
    exact ⟨strContains_mid _ _ _, strContains_in_fourth _ _ _ _ _⟩

/-- C9 witness: the numeric `revenue_2022` column with values
`[100, 120, 110]` is classified by the revenue rule and its description
contains "100" and "120". -/
theorem C9_numeric_range_in_description_witness :
    classifyNumeric ("revenue_2022".data.map Char.toLower) 3 3 = .financialRevenue ∧
    strContains (analyzeColumnIntelligently "revenue_2022".data
      ⟨.numeric, 3, 3, 100, 120, 110, [], [], [], 0, []⟩) "100".data ∧
    strContains (analyzeColumnIntelligently "revenue_2022".data
      ⟨.numeric, 3, 3, 100, 120, 110, [], [], [], 0, []⟩) "120".data := by
  have h := (C9_numeric_range_in_description "revenue_2022".data
    ⟨.numeric, 3, 3, 100, 120, 110, [], [], [], 0, []⟩ rfl).2.2.1 (by decide)
  exact ⟨by decide, h.1, h.2⟩

/-- C8: on every pair of (stripped) input texts the Context Extractor is a
total function — no exception can escape — returning `None` exactly when
the background text is empty or does not exceed the 50-character minimum
threshold, and the parsed context record otherwise.  (In the embedding the
parser is total, so the "internal error" case of the claim never occurs.) -/
theorem C8_context_none_iff (bg msg : List Char) :
    (readInputFolderContext bg msg = none ↔ bg.length ≤ 50) ∧
    (∀ c, readInputFolderContext bg msg = some c → c = parseDatasetBackground bg msg) := by
  constructor
  · unfold readInputFolderContext
    by_cases h : bg ≠ [] ∧ 50 < bg.length
    · rw [if_pos h]
      constructor
      · intro hco
        exact absurd hco (by simp)
      · intro hle
        exact absurd hle (by omega)
    · rw [if_neg h]
      push_neg at h
      constructor
      · intro _
        by_cases hb : bg = []
        · subst hb
          simp
        · exact h hb
      · intro _
        rfl
  · intro c hc
    unfold readInputFolderContext at hc
    split at hc
    · exact (Option.some.inj hc).symm
    · exact absurd hc (by simp)

/-- C8 witness: a 5-character background yields `None`; a 63-character
background yields a context record (not `None`). -/
theorem C8_context_none_iff_witness :
    readInputFolderContext "short".data [] = none ∧
    readInputFolderContext "This dataset covers airline financial data for risk analysis.".data [] ≠ none := by
  constructor
  · exact (C8_context_none_iff "short".data []).1.mpr (by decide)
  · intro hnone
    have hle := (C8_context_none_iff
      "This dataset covers airline financial data for risk analysis.".data []).1.mp hnone
    exact absurd hle (by decide)

end MetaMinds
